import Mathlib

/-!
Formal verification of selected behaviours of the Gardener control-plane
repository (gardener-incubator/gardener).

Each section below shallowly embeds one Go component into Lean:

* StaleProject — the stale-project reconciler of the controller manager
  (computeSecretNames and markProjectAsStale).
* WorkerCtl — the Worker extension reconciler (operation selection and the
  infrastructure-request-throttling backoff).
* BastionCtl — the Bastion garbage-collecting reconciler.
* SeedRestriction — the SeedRestriction admission webhook handler.
* ShootCare — the shoot health checks (healthChecks and Health.Check).
* DepGraph — the dependency graph tracker used by the seed authorizer.

Pure functions become Lean functions; Go time values become integral
nanoseconds; nil-able fields become Option; maps become association lists.
Definitions follow the Go source statement by statement; definitions for code
whose implementation is not part of this source tree are marked
"Modelled from the spec" in their doc comment.
-/

namespace StaleProject

/-- Subset of a Kubernetes OwnerReference used by computeSecretNames. -/
structure OwnerReference where
  apiVersion : String
  kind : String
deriving DecidableEq, Repr

/-- Subset of a corev1.Secret used by computeSecretNames: its name, its type
and its owner references. -/
structure Secret where
  name : String
  type : String
  ownerReferences : List OwnerReference
deriving DecidableEq, Repr

/-- Value of gardencorev1beta1.SchemeGroupVersion.String() in Go. -/
def gardenCoreAPIVersion : String := "core.gardener.cloud/v1beta1"

/-- Value of corev1.SecretTypeOpaque in Go. -/
def secretTypeOpaqueValue : String := "Opaque"

/-- Embedding of computeSecretNames (part_008, lines 309-327). The Go loop body
reads:

    if secret.Type != corev1.SecretTypeOpaque { continue }
    for _, ownerRef := range secret.OwnerReferences {
      if ownerRef.APIVersion == ... && ownerRef.Kind == "Shoot" { continue }
    }
    names.Insert(secret.Name)

The continue inside the inner for loop continues the INNER loop, so the inner
loop has no observable effect and every Opaque secret name is inserted; the
embedding reproduces exactly that behaviour. -/
def computeSecretNames (secretList : List Secret) : List String :=
  secretList.foldl
    (fun names secret =>
      if secret.type ≠ secretTypeOpaqueValue then names
      else names.insert secret.name)
    []

/-- Behaviour stated by the doc comment above computeSecretNames in the source
("determines the names of Secrets that are of type Opaque and don't have owner
references to a Shoot"): an Opaque secret owned by a gardener core Shoot is
excluded. -/
def computeSecretNamesDocumented (secretList : List Secret) : List String :=
  secretList.foldl
    (fun names secret =>
      if secret.type ≠ secretTypeOpaqueValue then names
      else if secret.ownerReferences.any
          (fun ownerRef =>
            ownerRef.apiVersion == gardenCoreAPIVersion && ownerRef.kind == "Shoot") then
        names
      else names.insert secret.name)
    []

/-- An Opaque secret that is owned by a gardener core Shoot. -/
def shootOwnedOpaqueSecret : Secret :=
  { name := "shoot-owned"
    type := "Opaque"
    ownerReferences := [{ apiVersion := "core.gardener.cloud/v1beta1", kind := "Shoot" }] }

/-- Status subset of a gardener Project used by markProjectAsStale:
Status.StaleSinceTimestamp and Status.StaleAutoDeleteTimestamp, as integral
nanoseconds since the epoch (none stands for a nil pointer). -/
structure ProjectStatus where
  staleSinceTimestamp : Option Int
  staleAutoDeleteTimestamp : Option Int
deriving DecidableEq, Repr

/-- Nanoseconds in one day (time.Hour * 24 in Go). -/
def dayNs : Int := 24 * 3600 * 1000000000

/-- Embedding of the status mutation performed by markProjectAsStale
(part_008, lines 256-284). g is config.StaleGracePeriodDays, e is
config.StaleExpirationTimeDays, now is the value of nowFunc(). If
StaleSinceTimestamp is nil it is set to now (so the value used below is the
old timestamp when present, otherwise now). While the grace period has not
elapsed the auto-delete timestamp is reset to nil; otherwise the newly
computed auto-delete timestamp replaces the old one only when it is strictly
later (Go: autoDeleteTimestamp.After(...)). -/
def markProjectAsStale (g e now : Int) (st : ProjectStatus) : ProjectStatus :=
  let since := st.staleSinceTimestamp.getD now
  let st1 : ProjectStatus := { st with staleSinceTimestamp := some since }
  if since + dayNs * g > now then
    { st1 with staleAutoDeleteTimestamp := none }
  else
    let autoDeleteTimestamp := since + dayNs * e
    match st1.staleAutoDeleteTimestamp with
    | none => { st1 with staleAutoDeleteTimestamp := some autoDeleteTimestamp }
    | some cur =>
      if autoDeleteTimestamp > cur then
        { st1 with staleAutoDeleteTimestamp := some autoDeleteTimestamp }
      else st1

end StaleProject

/-- C8: computeSecretNames is claimed to exclude Opaque Secrets owned by a
gardener core Shoot; the code (faithfully embedded, including the ineffective
inner loop) nevertheless returns the name of such a secret, while the
behaviour documented in its own doc comment would exclude it. -/
theorem computeSecretNames_includes_shoot_owned :
    StaleProject.computeSecretNames [StaleProject.shootOwnedOpaqueSecret]
        = ["shoot-owned"]
    ∧ StaleProject.computeSecretNamesDocumented [StaleProject.shootOwnedOpaqueSecret]
        = [] := by
  constructor <;> decide

/-- Helper: markProjectAsStale always reports the project as stale since the
previously recorded timestamp when one exists, and since now otherwise. -/
theorem markProjectAsStale_staleSince_eq (g e now : Int) (st : StaleProject.ProjectStatus) :
    (StaleProject.markProjectAsStale g e now st).staleSinceTimestamp
      = some (st.staleSinceTimestamp.getD now) := by
  unfold StaleProject.markProjectAsStale
  dsimp only
  split
  · rfl
  · split
    · rfl
    · split <;> rfl

/-- C9: markProjectAsStale (1) preserves an already-set StaleSinceTimestamp,
(2) never moves an already-set StaleAutoDeleteTimestamp earlier — it is only
replaced when the newly computed value is strictly later — and (3) while the
stale grace period has not yet elapsed, the auto-delete timestamp is reset to
nil. -/
theorem markProjectAsStale_monotone (g e now : Int) (st : StaleProject.ProjectStatus) :
    (∀ t, st.staleSinceTimestamp = some t →
      (StaleProject.markProjectAsStale g e now st).staleSinceTimestamp = some t)
    ∧ (∀ told tnew, st.staleAutoDeleteTimestamp = some told →
        (StaleProject.markProjectAsStale g e now st).staleAutoDeleteTimestamp = some tnew →
        tnew = told ∨ told < tnew)
    ∧ (∀ t, (StaleProject.markProjectAsStale g e now st).staleSinceTimestamp = some t →
        now < t + StaleProject.dayNs * g →
        (StaleProject.markProjectAsStale g e now st).staleAutoDeleteTimestamp = none) := by
  obtain ⟨since?, auto?⟩ := st
  by_cases hc : since?.getD now + StaleProject.dayNs * g > now
  · refine ⟨?_, ?_, ?_⟩
    · intro t ht
      cases since? with
      | none => cases ht
      | some s =>
        cases ht
        simp [markProjectAsStale_staleSince_eq]
    · intro told tnew hold hnew
      simp [StaleProject.markProjectAsStale, hc] at hnew
    · intro t ht hlt
      simp [StaleProject.markProjectAsStale, hc]
  · by_cases hd : auto? = none
    · subst hd
      refine ⟨?_, ?_, ?_⟩
      · intro t ht
        cases since? with
        | none => cases ht
        | some s =>
          cases ht
          simp [markProjectAsStale_staleSince_eq]
      · intro told tnew hold hnew
        cases hold
      · intro t ht hlt
        exfalso
        simp [StaleProject.markProjectAsStale, hc] at ht
        omega
    · obtain ⟨cur, rfl⟩ := Option.ne_none_iff_exists'.mp hd
      by_cases he : since?.getD now + StaleProject.dayNs * e > cur
      · refine ⟨?_, ?_, ?_⟩
        · intro t ht
          cases since? with
          | none => cases ht
          | some s =>
            cases ht
            simp [markProjectAsStale_staleSince_eq]
        · intro told tnew hold hnew
          cases hold
          simp [StaleProject.markProjectAsStale, hc, he] at hnew
          omega
        · intro t ht hlt
          exfalso
          simp [StaleProject.markProjectAsStale, hc, he] at ht
          omega
      · refine ⟨?_, ?_, ?_⟩
        · intro t ht
          cases since? with
          | none => cases ht
          | some s =>
            cases ht
            simp [markProjectAsStale_staleSince_eq]
        · intro told tnew hold hnew
          cases hold
          simp [StaleProject.markProjectAsStale, hc, he] at hnew
          omega
        · intro t ht hlt
          exfalso
          simp [StaleProject.markProjectAsStale, hc, he] at ht
          omega

/-- Witness for C9: evaluate the theorem at a concrete project status. -/
theorem markProjectAsStale_monotone_witness :
    (StaleProject.markProjectAsStale 1 2 (3 * StaleProject.dayNs)
      { staleSinceTimestamp := some 0,
        staleAutoDeleteTimestamp := some (5 * StaleProject.dayNs) }).staleSinceTimestamp
      = some 0 :=
  (markProjectAsStale_monotone 1 2 (3 * StaleProject.dayNs)
    { staleSinceTimestamp := some 0,
      staleAutoDeleteTimestamp := some (5 * StaleProject.dayNs) }).1 0 rfl

namespace WorkerCtl

/-- Type of a gardener last operation (gardencorev1beta1.LastOperationType). -/
inductive LastOperationType where
  | create
  | reconcile
  | delete
  | migrate
  | restore
deriving DecidableEq, Repr

/-- State of a gardener last operation (gardencorev1beta1.LastOperationState). -/
inductive LastOperationState where
  | processing
  | succeeded
  | failed
  | pending
  | aborted
deriving DecidableEq, Repr

/-- Subset of gardencorev1beta1.LastOperation used by the worker reconciler. -/
structure LastOperation where
  optype : LastOperationType
  state : LastOperationState
deriving DecidableEq, Repr

/-- Subset of an extensionsv1alpha1.Worker used by the reconciler: its
annotations, its deletion timestamp and its Status.LastOperation. -/
structure Worker where
  annotations : List (String × String)
  deletionTimestamp : Option Int
  lastOperation : Option LastOperation
deriving DecidableEq, Repr

/-- Value of the Go constant v1beta1constants.GardenerOperation. -/
def gardenerOperationKey : String := "gardener.cloud/operation"

/-- Value of the Go constant v1beta1constants.GardenerOperationRestore. -/
def gardenerOperationRestore : String := "restore"

/-- Lookup in a Go map modelled as an association list; a missing key yields
Go's zero string. -/
def lookupAnn (anns : List (String × String)) (k : String) : String :=
  ((anns.find? (fun p => p.1 == k)).map (fun p => p.2)).getD ""

/-- Embedding of isWorkerMigrated (part_003, lines 256-260): the last
operation exists, is of type Migrate and is in state Succeeded. -/
def isWorkerMigrated (w : Worker) : Bool :=
  match w.lastOperation with
  | some lastOp => lastOp.optype == .migrate && lastOp.state == .succeeded
  | none => false

/-- Operation chosen by the switch statement in reconciler.Reconcile. -/
inductive WorkerAction where
  | skipMigrated
  | migrate
  | delete
  | restore
  | reconcile
deriving DecidableEq, Repr

/-- Embedding of the operation-selection switch in reconciler.Reconcile
(part_003, lines 98-111). operationType stands for the value computed by
gardencorev1beta1helper.ComputeOperationType (whose definition is not part of
this source tree), so it is taken as an input here. -/
def chooseWorkerAction (w : Worker) (operationType : LastOperationType) : WorkerAction :=
  if isWorkerMigrated w then .skipMigrated
  else if operationType == .migrate then .migrate
  else if w.deletionTimestamp.isSome then .delete
  else if lookupAnn w.annotations gardenerOperationKey == gardenerOperationRestore then .restore
  else .reconcile

/-- Outcome of the front part of reconciler.Reconcile. -/
inductive WorkerReconcileOutcome where
  | workerNotFound
  | stopFailedShoot
  | acted (a : WorkerAction)
deriving DecidableEq, Repr

/-- Embedding of the control flow of reconciler.Reconcile before the chosen
operation runs (part_003, lines 76-111): a missing Worker is a clean no-op, a
failed Shoot stops reconciliation, otherwise the switch chooses the
operation. -/
def workerReconcileDecision (worker? : Option Worker) (clusterFailed : Bool)
    (operationType : LastOperationType) : WorkerReconcileOutcome :=
  match worker? with
  | none => .workerNotFound
  | some w =>
    if clusterFailed then .stopFailedShoot
    else .acted (chooseWorkerAction w operationType)

/-- Error codes from gardencorev1beta1 used by the worker reconciler;
infraRequestThrottling is gardencorev1beta1.ErrorInfraRequestThrottling. -/
inductive ErrorCode where
  | infraUnauthorized
  | infraQuotaExceeded
  | infraDependencies
  | resourcesDepleted
  | configurationProblem
  | infraRequestThrottling
deriving DecidableEq, Repr

/-- Result of a controller-runtime reconciliation (reconcile.Result), with the
requeue delay in nanoseconds. -/
structure ReconcileResult where
  requeue : Bool
  requeueAfterNs : Int
deriving DecidableEq, Repr

/-- Value of the Go constant backoffOnInfrastructureRequestThrottling
(part_003, line 40): 10 * time.Minute, in nanoseconds. -/
def backoffOnInfrastructureRequestThrottling : Int := 10 * 60 * 1000000000

/-- Embedding of the error post-processing at the end of reconciler.Reconcile
(part_003, lines 113-121). determinedCodes err stands for
ExtractErrorCodes(DetermineError(err, err.Error())); those helpers are not
part of this source tree, so the codes determined for an error are taken as
input. HasErrorCode is list membership. When the determined codes contain
ErrorInfraRequestThrottling, the error is swallowed and a requeue after the
throttling backoff is returned instead. -/
def finishWorkerReconcile (result : ReconcileResult) (err? : Option String)
    (determinedCodes : String → List ErrorCode) :
    ReconcileResult × Option String :=
  match err? with
  | none => (result, none)
  | some err =>
    if ErrorCode.infraRequestThrottling ∈ determinedCodes err then
      ({ requeue := true, requeueAfterNs := backoffOnInfrastructureRequestThrottling }, none)
    else (result, some err)

end WorkerCtl

/-- C6: for a Worker that exists whose Shoot is not failed, exactly one
operation is chosen, with precedence: a worker whose last operation is Migrate
in state Succeeded is skipped; otherwise a computed operation type Migrate
selects the migrate flow; otherwise a set deletion timestamp selects the
delete flow; otherwise the gardener operation annotation with value restore
selects the restore flow; otherwise the normal reconcile flow is selected. -/
theorem workerAction_precedence (w : WorkerCtl.Worker) (t : WorkerCtl.LastOperationType) :
    WorkerCtl.workerReconcileDecision (some w) false t
        = .acted (WorkerCtl.chooseWorkerAction w t)
    ∧ (WorkerCtl.chooseWorkerAction w t = .skipMigrated ↔ WorkerCtl.isWorkerMigrated w = true)
    ∧ (WorkerCtl.chooseWorkerAction w t = .migrate ↔
        WorkerCtl.isWorkerMigrated w = false ∧ t = .migrate)
    ∧ (WorkerCtl.chooseWorkerAction w t = .delete ↔
        WorkerCtl.isWorkerMigrated w = false ∧ t ≠ .migrate
          ∧ w.deletionTimestamp ≠ none)
    ∧ (WorkerCtl.chooseWorkerAction w t = .restore ↔
        WorkerCtl.isWorkerMigrated w = false ∧ t ≠ .migrate ∧ w.deletionTimestamp = none
          ∧ WorkerCtl.lookupAnn w.annotations WorkerCtl.gardenerOperationKey
              = WorkerCtl.gardenerOperationRestore)
    ∧ (WorkerCtl.chooseWorkerAction w t = .reconcile ↔
        WorkerCtl.isWorkerMigrated w = false ∧ t ≠ .migrate ∧ w.deletionTimestamp = none
          ∧ WorkerCtl.lookupAnn w.annotations WorkerCtl.gardenerOperationKey
              ≠ WorkerCtl.gardenerOperationRestore) := by
  refine ⟨rfl, ?_, ?_, ?_, ?_, ?_⟩ <;>
    · unfold WorkerCtl.chooseWorkerAction
      by_cases h1 : WorkerCtl.isWorkerMigrated w = true <;>
        by_cases h2 : t = WorkerCtl.LastOperationType.migrate <;>
          by_cases h3 : w.deletionTimestamp = none <;>
            by_cases h4 : WorkerCtl.lookupAnn w.annotations WorkerCtl.gardenerOperationKey
                = WorkerCtl.gardenerOperationRestore <;>
              simp_all [Option.isSome_iff_ne_none]

/-- Witness for C6 at a concrete worker with a deletion timestamp. -/
theorem workerAction_precedence_witness :
    WorkerCtl.chooseWorkerAction
        { annotations := [], deletionTimestamp := some 7, lastOperation := none }
        WorkerCtl.LastOperationType.reconcile
      = WorkerCtl.WorkerAction.delete :=
  (workerAction_precedence
    { annotations := [], deletionTimestamp := some 7, lastOperation := none }
    WorkerCtl.LastOperationType.reconcile).2.2.2.1.mpr (by decide)

/-- C7: whenever the chosen operation returns an error whose determined error
codes include the infrastructure-request-throttling code, Reconcile swallows
the error and returns a result requesting a requeue after exactly 10 minutes
with a nil error. -/
theorem workerReconcile_throttling_backoff (result : WorkerCtl.ReconcileResult)
    (err : String) (determinedCodes : String → List WorkerCtl.ErrorCode)
    (h : WorkerCtl.ErrorCode.infraRequestThrottling ∈ determinedCodes err) :
    WorkerCtl.finishWorkerReconcile result (some err) determinedCodes
      = ({ requeue := true, requeueAfterNs := 10 * 60 * 1000000000 }, none) := by
  simp [WorkerCtl.finishWorkerReconcile, h,
    WorkerCtl.backoffOnInfrastructureRequestThrottling]

/-- Witness for C7 at a concrete throttled error. -/
theorem workerReconcile_throttling_backoff_witness :
    WorkerCtl.finishWorkerReconcile { requeue := false, requeueAfterNs := 0 }
        (some "throttled") (fun _ => [WorkerCtl.ErrorCode.infraRequestThrottling])
      = ({ requeue := true, requeueAfterNs := 10 * 60 * 1000000000 }, none) :=
  workerReconcile_throttling_backoff { requeue := false, requeueAfterNs := 0 }
    "throttled" (fun _ => [WorkerCtl.ErrorCode.infraRequestThrottling]) (by decide)

namespace BastionCtl

/-- Subset of an operations.gardener.cloud Bastion used by the reconciler:
creation timestamp, deletion timestamp, Spec.SeedName and
Status.ExpirationTimestamp (times as integral nanoseconds). -/
structure Bastion where
  creationTimestamp : Int
  deletionTimestamp : Option Int
  seedName : Option String
  expirationTimestamp : Option Int
deriving DecidableEq, Repr

/-- Subset of the referenced Shoot used by the reconciler: its deletion
timestamp and Spec.SeedName. -/
structure Shoot where
  deletionTimestamp : Option Int
  seedName : Option String
deriving DecidableEq, Repr

/-- Outcome of the bastion reconciler: the Bastion is gone, it is already
marked for deletion (no-op), it is deleted now, or the reconciliation is
requeued after the given duration. -/
inductive BastionOutcome where
  | gone
  | skipDeleting
  | deleteBastion
  | requeueAfter (d : Int)
deriving DecidableEq, Repr

/-- Embedding of reconciler.Reconcile for Bastions (part_010, lines 219-299).
bastion? is the result of fetching the Bastion (none when not found), shoot?
the result of fetching the referenced Shoot. A Bastion marked for deletion is
not reconciled. The Bastion is deleted when the Shoot is gone, when the Shoot
is marked for deletion, when the seed names are not deep-equal, when the
expiration timestamp lies strictly in the past (Go: now.After), or when its
age strictly exceeds maxLifetime (Go: time.Since(creation) > maxLifetime).
Otherwise it requeues after the time until the maximum lifetime is reached,
capped by the time until expiration when an expiration timestamp is set. -/
def bastionReconcile (bastion? : Option Bastion) (shoot? : Option Shoot)
    (now maxLifetime : Int) : BastionOutcome :=
  match bastion? with
  | none => .gone
  | some bastion =>
    if bastion.deletionTimestamp.isSome then .skipDeleting
    else
      match shoot? with
      | none => .deleteBastion
      | some shoot =>
        if shoot.deletionTimestamp.isSome then .deleteBastion
        else if shoot.seedName ≠ bastion.seedName then .deleteBastion
        else if (match bastion.expirationTimestamp with
                 | some exp => decide (exp < now)
                 | none => false) then .deleteBastion
        else if maxLifetime < now - bastion.creationTimestamp then .deleteBastion
        else
          let untilLifetime := bastion.creationTimestamp + maxLifetime - now
          let requeueAfter :=
            match bastion.expirationTimestamp with
            | some exp => if exp - now < untilLifetime then exp - now else untilLifetime
            | none => untilLifetime
          .requeueAfter requeueAfter

end BastionCtl

/-- C10: an existing Bastion that is not marked for deletion is deleted exactly
when the referenced Shoot does not exist, the Shoot has a deletion timestamp,
the seed names differ, the expiration timestamp is in the past, or the age
exceeds the maximum lifetime; otherwise the reconciler requeues after the
minimum of the time until expiration and the time until the maximum lifetime
is reached. -/
theorem bastionReconcile_delete_iff (b : BastionCtl.Bastion)
    (shoot? : Option BastionCtl.Shoot) (now maxLifetime : Int)
    (hb : b.deletionTimestamp = none) :
    (BastionCtl.bastionReconcile (some b) shoot? now maxLifetime
        = .deleteBastion ↔
      shoot? = none
      ∨ ∃ s, shoot? = some s ∧
          (s.deletionTimestamp ≠ none
            ∨ s.seedName ≠ b.seedName
            ∨ (∃ exp, b.expirationTimestamp = some exp ∧ exp < now)
            ∨ maxLifetime < now - b.creationTimestamp))
    ∧ (∀ s, shoot? = some s → s.deletionTimestamp = none → s.seedName = b.seedName →
        (∀ exp, b.expirationTimestamp = some exp → ¬ exp < now) →
        ¬ maxLifetime < now - b.creationTimestamp →
        BastionCtl.bastionReconcile (some b) shoot? now maxLifetime
          = .requeueAfter (match b.expirationTimestamp with
              | some exp => min (exp - now) (b.creationTimestamp + maxLifetime - now)
              | none => b.creationTimestamp + maxLifetime - now)) := by
  constructor
  · cases shoot? with
    | none =>
      simp [BastionCtl.bastionReconcile, hb]
    | some s =>
      cases hs : s.deletionTimestamp with
      | some d =>
        simp [BastionCtl.bastionReconcile, hb, hs]
      | none =>
        by_cases hseed : s.seedName = b.seedName
        · cases hexp : b.expirationTimestamp with
          | some exp =>
            by_cases hlt : exp < now
            · simp [BastionCtl.bastionReconcile, hb, hs, hseed, hexp, hlt]
            · by_cases hage : maxLifetime < now - b.creationTimestamp
              · simp [BastionCtl.bastionReconcile, hb, hs, hseed, hexp, hlt, hage]
              · simp [BastionCtl.bastionReconcile, hb, hs, hseed, hexp, hlt, hage]
          | none =>
            by_cases hage : maxLifetime < now - b.creationTimestamp
            · simp [BastionCtl.bastionReconcile, hb, hs, hseed, hexp, hage]
            · simp [BastionCtl.bastionReconcile, hb, hs, hseed, hexp, hage]
        · simp [BastionCtl.bastionReconcile, hb, hs, hseed]
  · intro s hsome hdel hseed hexp hage
    subst hsome
    cases hexpv : b.expirationTimestamp with
    | none =>
      simp [BastionCtl.bastionReconcile, hb, hdel, hseed, hexpv, hage]
    | some exp =>
      have hnl : ¬ exp < now := hexp exp hexpv
      simp [BastionCtl.bastionReconcile, hb, hdel, hseed, hexpv, hnl, hage]
      rw [min_def]
      split <;> split <;> omega

/-- Witness for C10 at a concrete fresh Bastion whose Shoot matches. -/
theorem bastionReconcile_delete_iff_witness :
    BastionCtl.bastionReconcile
        (some { creationTimestamp := 0, deletionTimestamp := none,
                seedName := some "seed-a", expirationTimestamp := some 50 })
        (some { deletionTimestamp := none, seedName := some "seed-a" })
        10 100
      = .requeueAfter 40 :=
  (bastionReconcile_delete_iff
      { creationTimestamp := 0, deletionTimestamp := none,
        seedName := some "seed-a", expirationTimestamp := some 50 }
      (some { deletionTimestamp := none, seedName := some "seed-a" })
      10 100 rfl).2
    { deletionTimestamp := none, seedName := some "seed-a" }
    rfl rfl rfl (by intro exp hexp; cases hexp; decide) (by decide)

namespace SeedRestriction

/-- Subset of authenticationv1.UserInfo used by the handler. -/
structure UserInfo where
  username : String
  groups : List String
deriving DecidableEq, Repr

/-- Group/resource pair of an admission request (metav1.GroupVersionResource
without the version, as the handler switches on schema.GroupResource). -/
structure GroupResource where
  group : String
  resource : String
deriving DecidableEq, Repr

/-- Subset of an admission.Request used here: the requesting user and the
requested resource. A request that carries no resource has Go's zero-valued
GroupVersionResource, i.e. empty group and resource strings. -/
structure Request where
  userInfo : UserInfo
  resource : GroupResource
deriving DecidableEq, Repr

/-- Subset of an admission.Response: whether the request is allowed and the
result code. -/
structure Response where
  allowed : Bool
  code : Int
deriving DecidableEq, Repr

/-- Value of the Go constant v1beta1constants.SeedsGroup. -/
def seedsGroup : String := "gardener.cloud:system:seeds"

/-- Value of the Go constant v1beta1constants.SeedUserNamePrefix. -/
def seedUserNamePfx : String := "gardener.cloud:system:seed:"

/-- Modelled from the spec: seedidentity.FromUserInfoInterface, used by the
SeedRestriction handler to decide whether the requesting user is a gardener
seed user (its implementation is not part of this source tree). A seed user
has a username carrying the seed user name prefix and is a member of the
gardener seeds group; the test file drives the handler with exactly such
users. -/
def isSeedUser (u : UserInfo) : Bool :=
  seedUserNamePfx.isPrefixOf u.username && u.groups.contains seedsGroup

/-- The group/resource pairs handled by the SeedRestriction webhook, as
enumerated by its test file (src/pkg/admissioncontroller/webhooks/admission/
seedrestriction/admission_test.go): shootstates, shootextensionstatuses,
backupbuckets, backupentries and seeds in core.gardener.cloud, bastions in
operations.gardener.cloud, leases in coordination.k8s.io, and
certificatesigningrequests in certificates.k8s.io. -/
def handledResources : List GroupResource :=
  [ { group := "core.gardener.cloud", resource := "shootstates" }
  , { group := "core.gardener.cloud", resource := "shootextensionstatuses" }
  , { group := "core.gardener.cloud", resource := "backupbuckets" }
  , { group := "core.gardener.cloud", resource := "backupentries" }
  , { group := "core.gardener.cloud", resource := "seeds" }
  , { group := "operations.gardener.cloud", resource := "bastions" }
  , { group := "coordination.k8s.io", resource := "leases" }
  , { group := "certificates.k8s.io", resource := "certificatesigningrequests" } ]

/-- Response admission.Allowed("") carrying result code 200
(responseAllowed in the test file, lines 70-78). -/
def responseAllowed : Response := { allowed := true, code := 200 }

/-- Modelled from the spec: the SeedRestriction handler's Handle method (its
implementation is not part of this source tree; the test file specifies its
behaviour). A request from a user that is not a seed user is allowed with
code 200; a request whose group/resource pair is not one of the handled kinds
(including the zero-valued resource of a request carrying no resource) is
allowed with code 200; otherwise the per-resource admission logic decides,
which is kept as the input admitHandled. -/
def handle (admitHandled : GroupResource → Request → Response) (req : Request) : Response :=
  if isSeedUser req.userInfo then
    if req.resource ∈ handledResources then admitHandled req.resource req
    else responseAllowed
  else responseAllowed

end SeedRestriction

/-- C3: for every admission request whose user is not a seed user, or that
carries no resource (zero-valued group/resource), or whose group/resource
pair is not one of the handled kinds, Handle returns an allowed response with
result code 200, independently of the per-resource admission logic. -/
theorem seedRestriction_no_opinion
    (admitHandled : SeedRestriction.GroupResource → SeedRestriction.Request
      → SeedRestriction.Response)
    (req : SeedRestriction.Request)
    (h : SeedRestriction.isSeedUser req.userInfo = false
      ∨ req.resource ∉ SeedRestriction.handledResources) :
    SeedRestriction.handle admitHandled req
      = { allowed := true, code := 200 } := by
  rcases h with h | h
  · simp [SeedRestriction.handle, h, SeedRestriction.responseAllowed]
  · by_cases hs : SeedRestriction.isSeedUser req.userInfo = true
    · simp [SeedRestriction.handle, hs, h, SeedRestriction.responseAllowed]
    · simp [SeedRestriction.handle, hs, SeedRestriction.responseAllowed]

/-- Witness for C3: a request by a non-seed user (the test's user "foo"
without groups) together with a request by a seed user for the zero-valued
resource, under a per-resource logic that would deny everything. -/
theorem seedRestriction_no_opinion_witness :
    SeedRestriction.handle (fun _ _ => { allowed := false, code := 403 })
        { userInfo := { username := "foo", groups := [] }
        , resource := { group := "", resource := "" } }
      = { allowed := true, code := 200 }
    ∧ SeedRestriction.handle (fun _ _ => { allowed := false, code := 403 })
        { userInfo := { username := "gardener.cloud:system:seed:seed"
                      , groups := ["gardener.cloud:system:seeds"] }
        , resource := { group := "", resource := "" } }
      = { allowed := true, code := 200 } :=
  ⟨seedRestriction_no_opinion (fun _ _ => { allowed := false, code := 403 })
      { userInfo := { username := "foo", groups := [] }
      , resource := { group := "", resource := "" } }
      (Or.inl (by decide)),
   seedRestriction_no_opinion (fun _ _ => { allowed := false, code := 403 })
      { userInfo := { username := "gardener.cloud:system:seed:seed"
                    , groups := ["gardener.cloud:system:seeds"] }
      , resource := { group := "", resource := "" } }
      (Or.inr (by decide))⟩

namespace ShootCare

/-- Subset of a gardencorev1beta1.Condition used by the shoot health checks;
type, status, reason and message are Go strings. -/
structure Condition where
  ctype : String
  status : String
  reason : String
  message : String
deriving DecidableEq, Repr

/-- Go's zero-valued Condition: the initial value of the four local variables
apiserverAvailability, controlPlane, nodes, systemComponents in healthChecks
before the input conditions are scanned. -/
def zeroCondition : Condition :=
  { ctype := "", status := "", reason := "", message := "" }

/-- Value of gardencorev1beta1.ShootAPIServerAvailable. -/
def shootAPIServerAvailable : String := "APIServerAvailable"

/-- Value of gardencorev1beta1.ShootControlPlaneHealthy. -/
def shootControlPlaneHealthy : String := "ControlPlaneHealthy"

/-- Value of gardencorev1beta1.ShootEveryNodeReady. -/
def shootEveryNodeReady : String := "EveryNodeReady"

/-- Value of gardencorev1beta1.ShootSystemComponentsHealthy. -/
def shootSystemComponentsHealthy : String := "SystemComponentsHealthy"

/-- Embedding of the for/switch loop in healthChecks (etcdencryption.go,
lines 446-457): the local variable for type t ends up holding the last input
condition of type t, or Go's zero Condition when there is none. -/
def pickCondition (t : String) (conditions : List Condition) : Condition :=
  conditions.foldl (fun acc c => if c.ctype == t then c else acc) zeroCondition

/-- Modelled from the spec: the hibernated counterpart of a single condition,
as built by shootHibernatedConditions (whose implementation is not part of
this source tree); it keeps the condition's type. -/
def hibernatedCondition (c : Condition) : Condition :=
  { c with
    status := "True", reason := "ConditionHibernated",
    message := "Shoot cluster has been hibernated." }

/-- Modelled from the spec: shootHibernatedConditions (not part of this source
tree) maps each given condition to its hibernated counterpart. -/
def shootHibernatedConditions (conditions : List Condition) : List Condition :=
  conditions.map hibernatedCondition

/-- Modelled from the spec: HealthChecker.FailedCondition (not part of this
source tree): a failed condition carrying the given reason and message; it
keeps the condition's type. -/
def failedCondition (c : Condition) (reason message : String) : Condition :=
  { c with status := "False", reason := reason, message := message }

/-- Modelled from the spec: gardencorev1beta1helper's
UpdatedConditionUnknownErrorMessage (not part of this source tree): the
condition with status Unknown and the given explanatory message; it keeps the
condition's type. -/
def updatedConditionUnknownErrorMessage (c : Condition) (message : String) : Condition :=
  { c with status := "Unknown", reason := "ConditionCheckError", message := message }

/-- Names of the individual health checks healthChecks can run, used to record
which checks were executed. -/
inductive CheckName where
  | apiServerAvailability
  | controlPlane
  | clusterNodes
  | systemComponents
deriving DecidableEq, Repr

/-- Embedding of Health.healthChecks (etcdencryption.go, lines 435-510),
instrumented with the list of individual health checks it runs. hibernated is
HibernationEnabled || Status.IsHibernated; clientInitErr and apiServerRunning
are the two relevant outcomes of initializeShootClients; notRunningMessage is
shootControlPlaneNotRunningMessage(lastOperation). The individual checks
checkAPIServerAvailability, checkControlPlane, checkClusterNodes and
checkSystemComponents are kept as inputs mapping the condition they update
(cA, cC, cN, cS); for the control-plane check the NewConditionOrError
combination is folded into cC. -/
def healthChecks (hibernated : Bool) (clientInitErr : Option String)
    (apiServerRunning : Bool) (notRunningMessage : String)
    (cA cC cN cS : Condition → Condition)
    (conditions : List Condition) : List Condition × List CheckName :=
  if hibernated then (shootHibernatedConditions conditions, [])
  else
    let apiserverAvailability := pickCondition shootAPIServerAvailable conditions
    let controlPlane := pickCondition shootControlPlaneHealthy conditions
    let nodes := pickCondition shootEveryNodeReady conditions
    let systemComponents := pickCondition shootSystemComponentsHealthy conditions
    if clientInitErr.isSome || !apiServerRunning then
      let message :=
        match clientInitErr with
        | some e => "Could not initialize Shoot client for health check: " ++ e
        | none => notRunningMessage
      ([ failedCondition apiserverAvailability "APIServerDown"
           "Could not reach API server during client initialization."
       , cC controlPlane
       , updatedConditionUnknownErrorMessage nodes message
       , updatedConditionUnknownErrorMessage systemComponents message ]
      , [.controlPlane])
    else
      ([ cA apiserverAvailability, cC controlPlane, cN nodes, cS systemComponents ]
      , [.apiServerAvailability, .controlPlane, .clusterNodes, .systemComponents])

end ShootCare

/-- C4 (corrected): healthChecks does not ALWAYS return four conditions — in
the hibernated branch it maps the input conditions, so the empty input yields
zero conditions, not four. -/
theorem healthChecks_hibernated_empty_not_four :
    (ShootCare.healthChecks true none true "" id id id id []).1.length = 0
    ∧ (ShootCare.healthChecks true none true "" id id id id []).1.length ≠ 4 := by
  constructor <;> decide

/-- C4 (amended): when the shoot is neither hibernated nor marked hibernated,
healthChecks returns exactly four conditions and — provided the individual
checks preserve condition types and the input contains a condition of each of
the four types — they are, in order, of types APIServerAvailable,
ControlPlaneHealthy, EveryNodeReady, SystemComponentsHealthy; when the shoot
is hibernated, the hibernated counterparts of the input conditions are
returned immediately and no individual health check is run. -/
theorem healthChecks_four_in_order (hib : Bool) (cie : Option String) (run : Bool)
    (msg : String) (cA cC cN cS : ShootCare.Condition → ShootCare.Condition)
    (conds : List ShootCare.Condition)
    (hA : ∀ c, (cA c).ctype = c.ctype) (hC : ∀ c, (cC c).ctype = c.ctype)
    (hN : ∀ c, (cN c).ctype = c.ctype) (hS : ∀ c, (cS c).ctype = c.ctype) :
    (hib = false →
      (ShootCare.healthChecks hib cie run msg cA cC cN cS conds).1.length = 4
      ∧ ((∀ t, t ∈ [ShootCare.shootAPIServerAvailable, ShootCare.shootControlPlaneHealthy,
            ShootCare.shootEveryNodeReady, ShootCare.shootSystemComponentsHealthy] →
            (ShootCare.pickCondition t conds).ctype = t) →
          (ShootCare.healthChecks hib cie run msg cA cC cN cS conds).1.map
              (fun c => c.ctype)
            = [ShootCare.shootAPIServerAvailable, ShootCare.shootControlPlaneHealthy,
               ShootCare.shootEveryNodeReady, ShootCare.shootSystemComponentsHealthy]))
    ∧ (hib = true →
        ShootCare.healthChecks hib cie run msg cA cC cN cS conds
          = (conds.map ShootCare.hibernatedCondition, [])) := by
  constructor
  · rintro rfl
    by_cases herr : cie.isSome || !run
    · refine ⟨by simp [ShootCare.healthChecks, herr], ?_⟩
      intro hpick
      simp only [ShootCare.healthChecks, Bool.false_eq_true, if_false, herr, if_true,
        List.map_cons, List.map_nil, ShootCare.failedCondition,
        ShootCare.updatedConditionUnknownErrorMessage, hC]
      simp [hpick ShootCare.shootAPIServerAvailable (by simp), hpick ShootCare.shootControlPlaneHealthy (by simp),
        hpick ShootCare.shootEveryNodeReady (by simp),
        hpick ShootCare.shootSystemComponentsHealthy (by simp)]
    · refine ⟨by simp [ShootCare.healthChecks, herr], ?_⟩
      intro hpick
      simp only [ShootCare.healthChecks, Bool.false_eq_true, if_false, herr,
        List.map_cons, List.map_nil, hA, hC, hN, hS]
      simp [hpick ShootCare.shootAPIServerAvailable (by simp), hpick ShootCare.shootControlPlaneHealthy (by simp),
        hpick ShootCare.shootEveryNodeReady (by simp),
        hpick ShootCare.shootSystemComponentsHealthy (by simp)]
  · rintro rfl
    rfl

/-- Witness for the amended C4 at a concrete non-hibernated input holding the
four standard conditions. -/
theorem healthChecks_four_in_order_witness :
    (ShootCare.healthChecks false none true "" id id id id
        [ { ctype := "APIServerAvailable", status := "True", reason := "", message := "" }
        , { ctype := "ControlPlaneHealthy", status := "True", reason := "", message := "" }
        , { ctype := "EveryNodeReady", status := "True", reason := "", message := "" }
        , { ctype := "SystemComponentsHealthy", status := "True", reason := "", message := "" }
        ]).1.length = 4 :=
  ((healthChecks_four_in_order false none true "" id id id id
      [ { ctype := "APIServerAvailable", status := "True", reason := "", message := "" }
      , { ctype := "ControlPlaneHealthy", status := "True", reason := "", message := "" }
      , { ctype := "EveryNodeReady", status := "True", reason := "", message := "" }
      , { ctype := "SystemComponentsHealthy", status := "True", reason := "", message := "" }
      ]
      (fun _ => rfl) (fun _ => rfl) (fun _ => rfl) (fun _ => rfl)).1 rfl).1

/-- C5: when initializing the shoot client fails or the shoot API server is
not running, healthChecks returns exactly four conditions where
APIServerAvailable is a failed condition with reason APIServerDown,
EveryNodeReady and SystemComponentsHealthy are unknown with an explanatory
message, the control-plane check against the seed is still performed, and
neither the node check nor the system-components check is run. -/
theorem healthChecks_apiServerDown (cie : Option String) (run : Bool) (msg : String)
    (cA cC cN cS : ShootCare.Condition → ShootCare.Condition)
    (conds : List ShootCare.Condition)
    (h : cie.isSome = true ∨ run = false) :
    (ShootCare.healthChecks false cie run msg cA cC cN cS conds).1
        = [ ShootCare.failedCondition
              (ShootCare.pickCondition ShootCare.shootAPIServerAvailable conds)
              "APIServerDown" "Could not reach API server during client initialization."
          , cC (ShootCare.pickCondition ShootCare.shootControlPlaneHealthy conds)
          , ShootCare.updatedConditionUnknownErrorMessage
              (ShootCare.pickCondition ShootCare.shootEveryNodeReady conds)
              (match cie with
               | some e => "Could not initialize Shoot client for health check: " ++ e
               | none => msg)
          , ShootCare.updatedConditionUnknownErrorMessage
              (ShootCare.pickCondition ShootCare.shootSystemComponentsHealthy conds)
              (match cie with
               | some e => "Could not initialize Shoot client for health check: " ++ e
               | none => msg) ]
    ∧ (ShootCare.healthChecks false cie run msg cA cC cN cS conds).2
        = [ShootCare.CheckName.controlPlane]
    ∧ ShootCare.CheckName.clusterNodes
        ∉ (ShootCare.healthChecks false cie run msg cA cC cN cS conds).2
    ∧ ShootCare.CheckName.systemComponents
        ∉ (ShootCare.healthChecks false cie run msg cA cC cN cS conds).2 := by
  cases cie with
  | some e =>
    refine ⟨?_, ?_, ?_, ?_⟩ <;> simp [ShootCare.healthChecks]
  | none =>
    have hrun : run = false := by
      rcases h with h | h
      · cases h
      · exact h
    subst hrun
    refine ⟨?_, ?_, ?_, ?_⟩ <;> simp [ShootCare.healthChecks]

/-- Witness for C5 at a concrete failing client initialization. -/
theorem healthChecks_apiServerDown_witness :
    (ShootCare.healthChecks false (some "boom") true "" id id id id []).2
      = [ShootCare.CheckName.controlPlane] :=
  (healthChecks_apiServerDown (some "boom") true "" id id id id [] (Or.inl rfl)).2.1

namespace DepGraph

/-- Vertex types of the dependency graph tracker (graph.VertexType...);
covers the six watched kinds and the referenced kinds appearing in the graph
test file (part_006). -/
inductive VertexType where
  | seed
  | shoot
  | project
  | backupBucket
  | backupEntry
  | secretBinding
  | secret
  | nspace
  | cloudProfile
  | configMap
deriving DecidableEq, Repr

/-- A graph vertex: its type, namespace (empty for cluster-scoped objects)
and name. -/
structure Vertex where
  vtype : VertexType
  vns : String
  vname : String
deriving DecidableEq, Repr

/-- A directed edge of the dependency graph. -/
structure GEdge where
  src : Vertex
  dst : Vertex
deriving DecidableEq, Repr

/-- Modelled from the spec: the dependency graph state (the graph
implementation behind graph.New/graph.Setup is not part of this source tree;
only its test file part_006 is). The tracker stores directed edges from
referenced objects to referencing objects; a vertex exists exactly while some
edge is incident to it, so the state is the list of edges. -/
abbrev Graph := List GEdge

/-- An edge is incident to a vertex when the vertex is its source or its
destination. -/
def incident (e : GEdge) (v : Vertex) : Bool :=
  e.src == v || e.dst == v

/-- Number of distinct edges (graph.graph.Edges().Len()). -/
def edgeCount (g : Graph) : Nat := g.dedup.length

/-- The distinct vertices incident to at least one edge. -/
def nodesOf (g : Graph) : List Vertex :=
  (g.flatMap (fun e => [e.src, e.dst])).dedup

/-- Number of distinct vertices (graph.graph.Nodes().Len()). -/
def nodeCount (g : Graph) : Nat := (nodesOf g).length

/-- Destinations of all edges leaving the frontier. -/
def successors (g : Graph) (frontier : List Vertex) : List GEdge :=
  g.filter (fun e => decide (e.src ∈ frontier))

/-- Fuelled breadth-first search: does some path with at least one edge lead
from the frontier to the target. -/
def reachAux : Nat → Graph → List Vertex → Vertex → Bool
  | 0, _, _, _ => false
  | n + 1, g, frontier, target =>
    let next := (successors g frontier).map (fun e => e.dst)
    if target ∈ next then true
    else reachAux n g (frontier ++ next).dedup target

/-- Modelled from the spec: graph.HasPathFrom — whether the graph contains a
path (of at least one edge) from the source vertex to the destination vertex.
Two edges suffice per object chain in the tracker, but the search is a
general reachability check; the fuel bounds the number of frontier
expansions, and 2|g|+1 expansions cover every reachable vertex. -/
def hasPathFrom (g : Graph) (src dst : Vertex) : Bool :=
  reachAux (2 * g.length + 1) g [src] dst

/-- A namespaced reference to a secret (corev1.SecretReference). -/
structure SecretRef where
  refNs : String
  refName : String
deriving DecidableEq, Repr

/-- References of a gardencorev1beta1.Seed tracked by the graph:
Spec.SecretRef and Spec.Backup.SecretRef (either may be nil). -/
structure Seed where
  name : String
  secretRef : Option SecretRef
  backupSecretRef : Option SecretRef
deriving DecidableEq, Repr

/-- References of a gardencorev1beta1.Shoot tracked by the graph: its
namespace, Spec.CloudProfileName, Spec.SecretBindingName, the audit policy
config map, the DNS provider secret names, the referenced resources (given as
apiVersion/kind/name triples, of which v1 Secrets are tracked), Spec.SeedName
and Status.SeedName. -/
structure Shoot where
  ns : String
  name : String
  cloudProfileName : String
  secretBindingName : String
  auditPolicyConfigMapName : Option String
  dnsProviderSecretNames : List String
  resourceRefs : List (String × String × String)
  seedName : Option String
  statusSeedName : Option String
deriving DecidableEq, Repr

/-- References of a gardencorev1beta1.Project tracked by the graph:
Spec.Namespace (may be nil). -/
structure Project where
  name : String
  namespaceName : Option String
deriving DecidableEq, Repr

/-- References of a gardencorev1beta1.BackupBucket tracked by the graph:
Spec.SecretRef and Spec.SeedName. -/
structure BackupBucket where
  name : String
  secretRef : SecretRef
  seedName : Option String
deriving DecidableEq, Repr

/-- References of a gardencorev1beta1.BackupEntry tracked by the graph:
Spec.BucketName and Spec.SeedName. -/
structure BackupEntry where
  ns : String
  name : String
  bucketName : String
  seedName : Option String
deriving DecidableEq, Repr

/-- References of a gardencorev1beta1.SecretBinding tracked by the graph:
its SecretRef. -/
structure SecretBinding where
  ns : String
  name : String
  secretRef : SecretRef
deriving DecidableEq, Repr

/-- One of the six object kinds watched by the dependency graph tracker. -/
inductive WatchedObject where
  | seed (s : Seed)
  | shoot (s : Shoot)
  | project (p : Project)
  | backupBucket (b : BackupBucket)
  | backupEntry (b : BackupEntry)
  | secretBinding (sb : SecretBinding)
deriving DecidableEq, Repr

/-- The vertex representing a watched object itself. -/
def vertexOf : WatchedObject → Vertex
  | .seed s => ⟨.seed, "", s.name⟩
  | .shoot s => ⟨.shoot, s.ns, s.name⟩
  | .project p => ⟨.project, "", p.name⟩
  | .backupBucket b => ⟨.backupBucket, "", b.name⟩
  | .backupEntry b => ⟨.backupEntry, b.ns, b.name⟩
  | .secretBinding sb => ⟨.secretBinding, sb.ns, sb.name⟩

/-- Edges contributed by an optional reference. -/
def refEdges {α : Type} (o : Option α) (f : α → GEdge) : List GEdge :=
  match o with
  | none => []
  | some a => [f a]

/-- Modelled from the spec: the edges an object contributes to the graph, as
established by the expectations of the graph test file (part_006): edges run
from each referenced object's vertex to the referencing object's vertex, and
from a Shoot / BackupBucket / BackupEntry / Project to its Seed resp. bucket
resp. namespace. Of a Shoot's referenced resources only v1 Secrets are
tracked. -/
def contributedEdges : WatchedObject → List GEdge
  | .seed s =>
    refEdges s.secretRef (fun r => ⟨⟨.secret, r.refNs, r.refName⟩, ⟨.seed, "", s.name⟩⟩)
      ++ refEdges s.backupSecretRef
          (fun r => ⟨⟨.secret, r.refNs, r.refName⟩, ⟨.seed, "", s.name⟩⟩)
  | .shoot s =>
    let v : Vertex := ⟨.shoot, s.ns, s.name⟩
    [ ⟨⟨.nspace, "", s.ns⟩, v⟩
    , ⟨⟨.cloudProfile, "", s.cloudProfileName⟩, v⟩
    , ⟨⟨.secretBinding, s.ns, s.secretBindingName⟩, v⟩ ]
      ++ refEdges s.auditPolicyConfigMapName (fun n => ⟨⟨.configMap, s.ns, n⟩, v⟩)
      ++ s.dnsProviderSecretNames.map (fun n => ⟨⟨.secret, s.ns, n⟩, v⟩)
      ++ (s.resourceRefs.filter
            (fun r => r.1 == "v1" && r.2.1 == "Secret")).map
          (fun r => ⟨⟨.secret, s.ns, r.2.2⟩, v⟩)
      ++ refEdges s.seedName (fun n => ⟨v, ⟨.seed, "", n⟩⟩)
      ++ refEdges s.statusSeedName (fun n => ⟨v, ⟨.seed, "", n⟩⟩)
  | .project p =>
    refEdges p.namespaceName (fun n => ⟨⟨.project, "", p.name⟩, ⟨.nspace, "", n⟩⟩)
  | .backupBucket b =>
    [ ⟨⟨.secret, b.secretRef.refNs, b.secretRef.refName⟩, ⟨.backupBucket, "", b.name⟩⟩ ]
      ++ refEdges b.seedName (fun n => ⟨⟨.backupBucket, "", b.name⟩, ⟨.seed, "", n⟩⟩)
  | .backupEntry b =>
    [ ⟨⟨.backupEntry, b.ns, b.name⟩, ⟨.backupBucket, "", b.bucketName⟩⟩ ]
      ++ refEdges b.seedName (fun n => ⟨⟨.backupEntry, b.ns, b.name⟩, ⟨.seed, "", n⟩⟩)
  | .secretBinding sb =>
    [ ⟨⟨.secret, sb.secretRef.refNs, sb.secretRef.refName⟩,
       ⟨.secretBinding, sb.ns, sb.name⟩⟩ ]

/-- Modelled from the spec: the informer Add/Update handlers of the tracker
replace everything the object contributed before with the edges contributed
by the (new) object version: all edges incident to the object's vertex are
removed and the contributed edges are added. -/
def handleCreateOrUpdate (g : Graph) (o : WatchedObject) : Graph :=
  g.filter (fun e => !incident e (vertexOf o)) ++ contributedEdges o

/-- Modelled from the spec: the informer Delete handler of the tracker removes
every edge incident to the object's vertex (and thereby every vertex only the
object contributed). -/
def handleDelete (g : Graph) (o : WatchedObject) : Graph :=
  g.filter (fun e => !incident e (vertexOf o))

end DepGraph

/-- Helper: membership in the edges of an optional reference. -/
theorem depGraph_mem_refEdges {α : Type} {o : Option α} {f : α → DepGraph.GEdge}
    {e : DepGraph.GEdge} :
    e ∈ DepGraph.refEdges o f ↔ ∃ a, o = some a ∧ e = f a := by
  cases o <;> simp [DepGraph.refEdges, eq_comm]

/-- Helper: edges from an optional reference are incident to v when every
generated edge is. -/
theorem depGraph_incident_refEdges {α : Type} (o : Option α) (f : α → DepGraph.GEdge)
    (v : DepGraph.Vertex) (h : ∀ a, DepGraph.incident (f a) v = true) :
    ∀ e ∈ DepGraph.refEdges o f, DepGraph.incident e v = true := by
  intro e he
  rw [depGraph_mem_refEdges] at he
  obtain ⟨a, -, rfl⟩ := he
  exact h a

/-- Helper: mapped edges are incident to v when every generated edge is. -/
theorem depGraph_incident_map {α : Type} (l : List α) (f : α → DepGraph.GEdge)
    (v : DepGraph.Vertex) (h : ∀ a, DepGraph.incident (f a) v = true) :
    ∀ e ∈ l.map f, DepGraph.incident e v = true := by
  intro e he
  obtain ⟨a, -, rfl⟩ := List.mem_map.mp he
  exact h a

/-- Helper: every edge an object contributes is incident to the object's own
vertex. -/
theorem depGraph_contributed_incident (o : DepGraph.WatchedObject) :
    ∀ e ∈ DepGraph.contributedEdges o,
      DepGraph.incident e (DepGraph.vertexOf o) = true := by
  cases o with
  | seed s =>
    simp only [DepGraph.contributedEdges, DepGraph.vertexOf]
    refine List.forall_mem_append.mpr ⟨?_, ?_⟩ <;>
      exact depGraph_incident_refEdges _ _ _
        (fun a => by simp [DepGraph.incident])
  | shoot s =>
    simp only [DepGraph.contributedEdges, DepGraph.vertexOf]
    refine List.forall_mem_append.mpr ⟨List.forall_mem_append.mpr
      ⟨List.forall_mem_append.mpr ⟨List.forall_mem_append.mpr
        ⟨List.forall_mem_append.mpr ⟨?_, ?_⟩, ?_⟩, ?_⟩, ?_⟩, ?_⟩
    · intro e he
      simp only [List.mem_cons, List.not_mem_nil, or_false] at he
      rcases he with rfl | rfl | rfl <;> simp [DepGraph.incident]
    · exact depGraph_incident_refEdges _ _ _ (fun a => by simp [DepGraph.incident])
    · exact depGraph_incident_map _ _ _ (fun a => by simp [DepGraph.incident])
    · exact depGraph_incident_map _ _ _ (fun a => by simp [DepGraph.incident])
    · exact depGraph_incident_refEdges _ _ _ (fun a => by simp [DepGraph.incident])
    · exact depGraph_incident_refEdges _ _ _ (fun a => by simp [DepGraph.incident])
  | project p =>
    simp only [DepGraph.contributedEdges, DepGraph.vertexOf]
    exact depGraph_incident_refEdges _ _ _ (fun a => by simp [DepGraph.incident])
  | backupBucket b =>
    simp only [DepGraph.contributedEdges, DepGraph.vertexOf]
    refine List.forall_mem_append.mpr ⟨?_, ?_⟩
    · intro e he
      simp only [List.mem_cons, List.not_mem_nil, or_false] at he
      subst he
      simp [DepGraph.incident]
    · exact depGraph_incident_refEdges _ _ _ (fun a => by simp [DepGraph.incident])
  | backupEntry b =>
    simp only [DepGraph.contributedEdges, DepGraph.vertexOf]
    refine List.forall_mem_append.mpr ⟨?_, ?_⟩
    · intro e he
      simp only [List.mem_cons, List.not_mem_nil, or_false] at he
      subst he
      simp [DepGraph.incident]
    · exact depGraph_incident_refEdges _ _ _ (fun a => by simp [DepGraph.incident])
  | secretBinding sb =>
    simp only [DepGraph.contributedEdges, DepGraph.vertexOf]
    intro e he
    simp only [List.mem_cons, List.not_mem_nil, or_false] at he
    subst he
    simp [DepGraph.incident]

/-- Helper: the search never reaches a vertex without incoming edges. -/
theorem depGraph_reachAux_no_incoming {g : DepGraph.Graph} {v : DepGraph.Vertex}
    (h : ∀ e ∈ g, e.dst ≠ v) :
    ∀ (n : Nat) (fr : List DepGraph.Vertex), DepGraph.reachAux n g fr v = false := by
  intro n
  induction n with
  | zero => intro fr; rfl
  | succ n ih =>
    intro fr
    have hnc : v ∉ (DepGraph.successors g fr).map (fun e => e.dst) := by
      simp only [List.mem_map, DepGraph.successors, List.mem_filter]
      rintro ⟨e, ⟨he, -⟩, rfl⟩
      exact h e he rfl
    simp only [DepGraph.reachAux]
    rw [if_neg hnc]
    exact ih _

/-- Helper: the search never leaves a frontier no edge starts from. -/
theorem depGraph_reachAux_no_outgoing {g : DepGraph.Graph} {v : DepGraph.Vertex}
    (n : Nat) (fr : List DepGraph.Vertex) (h : ∀ e ∈ g, e.src ∉ fr) :
    DepGraph.reachAux n g fr v = false := by
  induction n generalizing fr with
  | zero => rfl
  | succ n ih =>
    have hsucc : DepGraph.successors g fr = [] := by
      rw [DepGraph.successors, List.filter_eq_nil_iff]
      intro e he
      simp [h e he]
    simp only [DepGraph.reachAux, hsucc, List.map_nil]
    rw [if_neg (by simp)]
    exact ih _ (by
      intro e he
      simp only [List.append_nil, List.mem_dedup]
      exact h e he)

/-- Helper: an edge of the graph yields a path from its source to its
destination. -/
theorem depGraph_hasPathFrom_of_mem {g : DepGraph.Graph} {e : DepGraph.GEdge}
    (he : e ∈ g) : DepGraph.hasPathFrom g e.src e.dst = true := by
  unfold DepGraph.hasPathFrom
  simp only [DepGraph.reachAux]
  rw [if_pos]
  simp only [List.mem_map, DepGraph.successors, List.mem_filter]
  exact ⟨e, ⟨he, by simp⟩, rfl⟩

/-- Helper: deleting an object leaves no edge incident to its vertex. -/
theorem depGraph_handleDelete_not_incident (g : DepGraph.Graph)
    (o : DepGraph.WatchedObject) :
    ∀ e ∈ DepGraph.handleDelete g o,
      DepGraph.incident e (DepGraph.vertexOf o) = false := by
  intro e he
  simp only [DepGraph.handleDelete, List.mem_filter, Bool.not_eq_eq_eq_not,
    Bool.not_true] at he
  exact he.2

/-- C1: processing a delete event removes every edge (and thereby every
vertex) the object contributed: afterwards no edge is incident to the
object's vertex, HasPathFrom is false towards the object's vertex from any
vertex and from the object's vertex to any vertex, and after adding any
single object to the empty graph and deleting it again the graph has zero
nodes and zero edges. -/
theorem depGraph_delete_removes_object (g : DepGraph.Graph)
    (o : DepGraph.WatchedObject) :
    (∀ e ∈ DepGraph.handleDelete g o,
      DepGraph.incident e (DepGraph.vertexOf o) = false)
    ∧ (∀ u, DepGraph.hasPathFrom (DepGraph.handleDelete g o) u
        (DepGraph.vertexOf o) = false)
    ∧ (∀ u, DepGraph.hasPathFrom (DepGraph.handleDelete g o)
        (DepGraph.vertexOf o) u = false)
    ∧ DepGraph.handleDelete (DepGraph.handleCreateOrUpdate [] o) o = []
    ∧ DepGraph.nodeCount (DepGraph.handleDelete (DepGraph.handleCreateOrUpdate [] o) o) = 0
    ∧ DepGraph.edgeCount (DepGraph.handleDelete (DepGraph.handleCreateOrUpdate [] o) o) = 0 := by
  have hempty : DepGraph.handleDelete (DepGraph.handleCreateOrUpdate [] o) o = [] := by
    simp only [DepGraph.handleCreateOrUpdate, DepGraph.handleDelete,
      List.filter_nil, List.nil_append]
    rw [List.filter_eq_nil_iff]
    intro e he
    simp [depGraph_contributed_incident o e he]
  refine ⟨depGraph_handleDelete_not_incident g o, ?_, ?_, hempty, ?_, ?_⟩
  · intro u
    apply depGraph_reachAux_no_incoming
    intro e he hdst
    have hinc := depGraph_handleDelete_not_incident g o e he
    simp [DepGraph.incident, hdst] at hinc
  · intro u
    apply depGraph_reachAux_no_outgoing
    intro e he hsrc
    have hinc := depGraph_handleDelete_not_incident g o e he
    simp only [List.mem_singleton] at hsrc
    simp [DepGraph.incident, hsrc] at hinc
  · rw [hempty]; rfl
  · rw [hempty]; rfl

/-- Witness for C1: add a single Seed to the empty graph and delete it. -/
theorem depGraph_delete_removes_object_witness :
    DepGraph.handleDelete
        (DepGraph.handleCreateOrUpdate []
          (DepGraph.WatchedObject.seed
            { name := "seed1"
              secretRef := some { refNs := "foo", refName := "bar" }
              backupSecretRef := some { refNs := "bar", refName := "baz" } }))
        (DepGraph.WatchedObject.seed
          { name := "seed1"
            secretRef := some { refNs := "foo", refName := "bar" }
            backupSecretRef := some { refNs := "bar", refName := "baz" } })
      = [] :=
  (depGraph_delete_removes_object []
    (DepGraph.WatchedObject.seed
      { name := "seed1"
        secretRef := some { refNs := "foo", refName := "bar" }
        backupSecretRef := some { refNs := "bar", refName := "baz" } })).2.2.2.1

/-- Helper: updating a freshly added object replaces its contribution: the
single-object graph afterwards holds exactly the new version's edges. -/
theorem depGraph_update_single (o o' : DepGraph.WatchedObject)
    (hv : DepGraph.vertexOf o' = DepGraph.vertexOf o) :
    DepGraph.handleCreateOrUpdate (DepGraph.handleCreateOrUpdate [] o) o'
      = DepGraph.contributedEdges o' := by
  simp only [DepGraph.handleCreateOrUpdate, List.filter_nil, List.nil_append]
  have hnil : (DepGraph.contributedEdges o).filter
      (fun e => !DepGraph.incident e (DepGraph.vertexOf o')) = [] := by
    rw [List.filter_eq_nil_iff]
    intro e he
    simp [hv, depGraph_contributed_incident o e he]
  rw [hnil, List.nil_append]

/-- Helper: an update that contributes the same edges (no reference field
changed) leaves the graph unchanged. -/
theorem depGraph_update_noop (g : DepGraph.Graph) (o o' : DepGraph.WatchedObject)
    (hv : DepGraph.vertexOf o' = DepGraph.vertexOf o)
    (hc : DepGraph.contributedEdges o' = DepGraph.contributedEdges o) :
    DepGraph.handleCreateOrUpdate (DepGraph.handleCreateOrUpdate g o) o'
      = DepGraph.handleCreateOrUpdate g o := by
  simp only [DepGraph.handleCreateOrUpdate, hv, hc]
  rw [List.filter_append]
  have h1 : (g.filter (fun e => !DepGraph.incident e (DepGraph.vertexOf o))).filter
      (fun e => !DepGraph.incident e (DepGraph.vertexOf o))
      = g.filter (fun e => !DepGraph.incident e (DepGraph.vertexOf o)) := by
    rw [List.filter_filter]
    apply List.filter_congr
    intro a _
    exact Bool.and_self _
  have h2 : (DepGraph.contributedEdges o).filter
      (fun e => !DepGraph.incident e (DepGraph.vertexOf o)) = [] := by
    rw [List.filter_eq_nil_iff]
    intro e he
    simp [depGraph_contributed_incident o e he]
  rw [h1, h2]
  simp

/-- Helper: no edge contributed by a Shoot leaves a cloud profile vertex other
than the Shoot's own cloud profile. -/
theorem depGraph_shoot_src_cloudProfile (s' : DepGraph.Shoot) (cname : String)
    (hne : cname ≠ s'.cloudProfileName) :
    ∀ e ∈ DepGraph.contributedEdges (.shoot s'),
      e.src ≠ ⟨.cloudProfile, "", cname⟩ := by
  simp only [DepGraph.contributedEdges]
  refine List.forall_mem_append.mpr ⟨List.forall_mem_append.mpr
    ⟨List.forall_mem_append.mpr ⟨List.forall_mem_append.mpr
      ⟨List.forall_mem_append.mpr ⟨?_, ?_⟩, ?_⟩, ?_⟩, ?_⟩, ?_⟩
  · intro e he
    simp only [List.mem_cons, List.not_mem_nil, or_false] at he
    rcases he with rfl | rfl | rfl
    · simp
    · simp only [ne_eq, DepGraph.Vertex.mk.injEq, true_and]
      intro hcontra
      exact hne hcontra.symm
    · simp
  · intro e he
    rw [depGraph_mem_refEdges] at he
    obtain ⟨a, -, rfl⟩ := he
    simp
  · intro e he
    obtain ⟨a, -, rfl⟩ := List.mem_map.mp he
    simp
  · intro e he
    obtain ⟨a, -, rfl⟩ := List.mem_map.mp he
    simp
  · intro e he
    rw [depGraph_mem_refEdges] at he
    obtain ⟨a, -, rfl⟩ := he
    simp
  · intro e he
    rw [depGraph_mem_refEdges] at he
    obtain ⟨a, -, rfl⟩ := he
    simp

/-- C2: after an update event the graph reflects exactly the references of the
new object version: among the edges incident to the object's vertex exactly
the newly contributed ones are present, all other edges are untouched, an
update contributing the same edges leaves the graph (hence node and edge
counts) unchanged, an update of a freshly added object leaves exactly the new
version's edges (so removing a reference removes exactly the corresponding
vertices and edges), and for a Shoot whose cloudProfileName changed,
HasPathFrom becomes false for the old cloud profile and true for the new
one. -/
theorem depGraph_update_reflects_new (g : DepGraph.Graph)
    (o : DepGraph.WatchedObject) :
    (∀ e ∈ DepGraph.handleCreateOrUpdate g o,
        DepGraph.incident e (DepGraph.vertexOf o) = true →
          e ∈ DepGraph.contributedEdges o)
    ∧ (∀ e ∈ DepGraph.contributedEdges o, e ∈ DepGraph.handleCreateOrUpdate g o)
    ∧ (∀ e, DepGraph.incident e (DepGraph.vertexOf o) = false →
        (e ∈ DepGraph.handleCreateOrUpdate g o ↔ e ∈ g))
    ∧ (∀ o', DepGraph.vertexOf o' = DepGraph.vertexOf o →
        DepGraph.contributedEdges o' = DepGraph.contributedEdges o →
        DepGraph.handleCreateOrUpdate (DepGraph.handleCreateOrUpdate g o) o'
          = DepGraph.handleCreateOrUpdate g o)
    ∧ (∀ o', DepGraph.vertexOf o' = DepGraph.vertexOf o →
        DepGraph.handleCreateOrUpdate (DepGraph.handleCreateOrUpdate [] o) o'
          = DepGraph.contributedEdges o')
    ∧ (∀ s s' : DepGraph.Shoot, s'.ns = s.ns → s'.name = s.name →
        s.cloudProfileName ≠ s'.cloudProfileName →
        DepGraph.hasPathFrom
            (DepGraph.handleCreateOrUpdate
              (DepGraph.handleCreateOrUpdate [] (.shoot s)) (.shoot s'))
            ⟨.cloudProfile, "", s.cloudProfileName⟩ ⟨.shoot, s'.ns, s'.name⟩ = false
        ∧ DepGraph.hasPathFrom
            (DepGraph.handleCreateOrUpdate
              (DepGraph.handleCreateOrUpdate [] (.shoot s)) (.shoot s'))
            ⟨.cloudProfile, "", s'.cloudProfileName⟩ ⟨.shoot, s'.ns, s'.name⟩ = true) := by
  refine ⟨?_, ?_, ?_, ?_, ?_, ?_⟩
  · intro e he hinc
    rcases List.mem_append.mp he with h | h
    · have := (List.mem_filter.mp h).2
      rw [hinc] at this
      cases this
    · exact h
  · intro e he
    exact List.mem_append_right _ he
  · intro e hinc
    constructor
    · intro he
      rcases List.mem_append.mp he with h | h
      · exact (List.mem_filter.mp h).1
      · have := depGraph_contributed_incident o e h
        rw [hinc] at this
        cases this
    · intro he
      apply List.mem_append_left
      rw [List.mem_filter]
      exact ⟨he, by rw [hinc]; rfl⟩
  · intro o' hv hc
    exact depGraph_update_noop g o o' hv hc
  · intro o' hv
    exact depGraph_update_single o o' hv
  · intro s s' hns hname hcp
    have hv : DepGraph.vertexOf (DepGraph.WatchedObject.shoot s')
        = DepGraph.vertexOf (DepGraph.WatchedObject.shoot s) := by
      simp [DepGraph.vertexOf, hns, hname]
    rw [depGraph_update_single (DepGraph.WatchedObject.shoot s)
      (DepGraph.WatchedObject.shoot s') hv]
    constructor
    · apply depGraph_reachAux_no_outgoing
      intro e he hsrc
      simp only [List.mem_singleton] at hsrc
      exact depGraph_shoot_src_cloudProfile s' s.cloudProfileName
        (fun h => hcp h) e he hsrc
    · have hmem : (⟨⟨.cloudProfile, "", s'.cloudProfileName⟩,
          ⟨.shoot, s'.ns, s'.name⟩⟩ : DepGraph.GEdge)
          ∈ DepGraph.contributedEdges (.shoot s') := by
        simp only [DepGraph.contributedEdges]
        apply List.mem_append_left
        apply List.mem_append_left
        apply List.mem_append_left
        apply List.mem_append_left
        apply List.mem_append_left
        simp
      exact depGraph_hasPathFrom_of_mem hmem

/-- Witness for C2: update a freshly added Shoot, changing its cloud profile
from cloudprofile1 to foo. -/
theorem depGraph_update_reflects_new_witness :
    DepGraph.hasPathFrom
        (DepGraph.handleCreateOrUpdate
          (DepGraph.handleCreateOrUpdate []
            (DepGraph.WatchedObject.shoot
              { ns := "namespace1", name := "shoot1", cloudProfileName := "cloudprofile1"
                secretBindingName := "secretbinding1", auditPolicyConfigMapName := none
                dnsProviderSecretNames := [], resourceRefs := []
                seedName := none, statusSeedName := none }))
          (DepGraph.WatchedObject.shoot
            { ns := "namespace1", name := "shoot1", cloudProfileName := "foo"
              secretBindingName := "secretbinding1", auditPolicyConfigMapName := none
              dnsProviderSecretNames := [], resourceRefs := []
              seedName := none, statusSeedName := none }))
        ⟨.cloudProfile, "", "cloudprofile1"⟩ ⟨.shoot, "namespace1", "shoot1"⟩ = false :=
  ((depGraph_update_reflects_new []
      (DepGraph.WatchedObject.shoot
        { ns := "namespace1", name := "shoot1", cloudProfileName := "cloudprofile1"
          secretBindingName := "secretbinding1", auditPolicyConfigMapName := none
          dnsProviderSecretNames := [], resourceRefs := []
          seedName := none, statusSeedName := none })).2.2.2.2.2
    { ns := "namespace1", name := "shoot1", cloudProfileName := "cloudprofile1"
      secretBindingName := "secretbinding1", auditPolicyConfigMapName := none
      dnsProviderSecretNames := [], resourceRefs := []
      seedName := none, statusSeedName := none }
    { ns := "namespace1", name := "shoot1", cloudProfileName := "foo"
      secretBindingName := "secretbinding1", auditPolicyConfigMapName := none
      dnsProviderSecretNames := [], resourceRefs := []
      seedName := none, statusSeedName := none }
    rfl rfl (by decide)).1
